import Mathlib

/-!
Verification of the furniture-placement backend (backend/app.py,
backend/services/nano_banana.py, backend/utils/image_utils.py,
backend/database.py) against its natural-language specification.

The Python code is shallowly embedded: dictionaries with optional keys
become structures of `Option` fields, Python floats on placement
percentages become `ℚ` (the arithmetic at stake is exact), machine-level
image handling is reduced to the dimension arithmetic the code performs,
and the two network effects (vision analysis, generative composition)
are passed in as explicit oracle values on the request.
-/

namespace Mebel

/-- A placement dictionary, as passed around in `analysis["placement"]` and
`furniture_items[i]["placement"]`.  Every key is optional, mirroring the
Python dicts read with `.get`. -/
structure PlacementDict where
  x_percent : Option ℚ := none
  y_percent : Option ℚ := none
  width_percent : Option ℚ := none
  height_percent : Option ℚ := none
  rotation : Option ℤ := none
  wall_alignment : Option String := none
  reasoning : Option String := none
deriving DecidableEq, Repr

/-- Python truthiness of a placement dict: an empty dict `{}` is falsy. -/
def PlacementDict.isTruthy (p : PlacementDict) : Bool :=
  p.x_percent.isSome || p.y_percent.isSome || p.width_percent.isSome ||
  p.height_percent.isSome || p.rotation.isSome || p.wall_alignment.isSome ||
  p.reasoning.isSome

/-- One entry of `analysis["furniture_items"]`. -/
structure FurnitureItem where
  index : ℤ
  type : Option String := none
  color : Option String := none
  style : Option String := none
  estimated_size : Option String := none
  placement : Option PlacementDict := none
deriving DecidableEq, Repr

/-- The `room_analysis` sub-dictionary (only the fields the code reads). -/
structure RoomAnalysis where
  style : Option String := none
  lighting : Option String := none
deriving DecidableEq, Repr

/-- The `furniture_analysis` sub-dictionary (only the fields the code reads). -/
structure FurnitureAnalysis where
  type : Option String := none
  style : Option String := none
  color : Option String := none
  estimated_size : Option String := none
deriving DecidableEq, Repr

/-- The analysis payload produced by the vision adapter or the fallback,
then mutated in place by `generate_placement`. -/
structure Analysis where
  room_analysis : RoomAnalysis := {}
  furniture_analysis : FurnitureAnalysis := {}
  placement : Option PlacementDict := none
  furniture_items : List FurnitureItem := []
deriving DecidableEq, Repr

/-- Per-item placement of the deterministic fallback layout
(backend/app.py lines 371-385). -/
def fallbackItemPlacement (n i : ℕ) : PlacementDict :=
  { x_percent := some (25 + ((i : ℚ) * 50) / ((max 1 (n - 1) : ℕ) : ℚ))
    y_percent := some (55 + ((i % 2 : ℕ) : ℚ) * 8)
    width_percent := some (30 / (n : ℚ))
    height_percent := some (25 / (n : ℚ))
    rotation := some 0
    wall_alignment := some "auto" }

/-- The analysis substituted when the Gemini call raises
(backend/app.py lines 366-386). -/
def fallbackAnalysis (n : ℕ) : Analysis :=
  { room_analysis := { style := some "modern", lighting := some "natural" }
    placement := some
      { x_percent := some 50, y_percent := some 60, width_percent := some 35,
        height_percent := some 25, rotation := some 0, wall_alignment := some "auto" }
    furniture_items := (List.range n).map (fun (i : ℕ) =>
      { index := (i : ℤ), type := some "furniture",
        placement := some (fallbackItemPlacement n i) }) }

/-- Clamp of the manual pixel box against the room size
(backend/app.py lines 393-398). -/
def clampBox (x0 y0 w0 h0 rw rh : ℤ) : ℤ × ℤ × ℤ × ℤ :=
  let cx := max 0 (min x0 (rw - 1))
  let cy := max 0 (min y0 (rh - 1))
  let cw := max 1 (min w0 (rw - cx))
  let ch := max 1 (min h0 (rh - cy))
  (cx, cy, cw, ch)

/-- Overwrite of `analysis["placement"]` with the (already clamped) manual
rectangle in percent form (backend/app.py lines 399-407). -/
def applyManualBox (a : Analysis) (cx cy cw ch rw rh : ℤ) : Analysis :=
  let p : PlacementDict := a.placement.getD ({} : PlacementDict)
  { a with placement := some (
    { p with
      x_percent := some ((((cx : ℚ) + (cw : ℚ) / 2) / (rw : ℚ)) * 100)
      y_percent := some ((((cy : ℚ) + (ch : ℚ) / 2) / (rh : ℚ)) * 100)
      width_percent := some (((cw : ℚ) / (rw : ℚ)) * 100)
      height_percent := some (((ch : ℚ) / (rh : ℚ)) * 100)
      rotation := some 0
      reasoning := some "User selected target rectangle (bbox). Place furniture inside this area." } : PlacementDict) }

/-- Wall inference from the clamped manual box margins
(backend/app.py lines 410-420). -/
def inferWallAlignment (cx cw cy rw : ℤ) : String :=
  let left_margin := cx
  let right_margin := rw - (cx + cw)
  let top_margin := cy
  let m := min (min left_margin right_margin) top_margin
  if m = right_margin then "right"
  else if m = left_margin then "left"
  else "back"

/-- Final overwrite of rotation and wall alignment on `analysis["placement"]`
(backend/app.py lines 425-427). -/
def finalizeRotationWall (a : Analysis) (rot : ℤ) (wall : String) : Analysis :=
  let p : PlacementDict := a.placement.getD ({} : PlacementDict)
  { a with placement := some { p with rotation := some rot, wall_alignment := some wall } }

/-! ## NanoBananaService (backend/services/nano_banana.py) -/

/-- The placement dictionary that `place_multi_furniture` hands to the
single-item call when `n == 1` (nano_banana.py lines 53-73):
`one_params["placement"]` starts as `placement_params.get("placement", {})`
and, when `furniture_items` is non-empty, is replaced by
`first.get("placement") or one_params["placement"]`. -/
def singleCallPlacement (a : Analysis) : PlacementDict :=
  let base : PlacementDict := a.placement.getD ({} : PlacementDict)
  match a.furniture_items with
  | [] => base
  | first :: _ =>
    match first.placement with
    | some p => if p.isTruthy then p else base
    | none => base

/-- One placement clause of the multi-item generation prompt: the numeric
geometry and item description that `_create_multi_placement_prompt`
interpolates for one index. -/
structure Clause where
  x_percent : ℚ
  y_percent : ℚ
  width_percent : ℚ
  height_percent : ℚ
  type : String
  color : String
deriving DecidableEq, Repr

/-- Lookup `next((x for x in furniture_items if x.get("index") == idx), None)`
(nano_banana.py line 472). -/
def lookupItem (items : List FurnitureItem) (idx : ℕ) : Option FurnitureItem :=
  items.find? (fun x => x.index = (idx : ℤ))

/-- The backfill geometry of `_create_multi_placement_prompt`
(nano_banana.py lines 479-483).  Note the y-offset factor is 10 here,
not the 8 of the fallback layout in app.py. -/
def promptFallbackClause (num_items idx : ℕ) (item : Option FurnitureItem) : Clause :=
  { x_percent := 25 + ((idx : ℚ) * 50) / ((max 1 (num_items - 1) : ℕ) : ℚ)
    y_percent := 55 + ((idx % 2 : ℕ) : ℚ) * 10
    width_percent := 30 / (num_items : ℚ)
    height_percent := 25 / (num_items : ℚ)
    type := (item.bind (fun it => it.type)).getD "furniture item"
    color := (item.bind (fun it => it.color)).getD "neutral" }

/-- The clause for one index of the multi-item prompt
(nano_banana.py lines 471-487). -/
def clauseFor (items : List FurnitureItem) (num_items idx : ℕ) : Clause :=
  match lookupItem items idx with
  | some item =>
    match item.placement with
    | some pl =>
      if pl.isTruthy then
        { x_percent := pl.x_percent.getD 50
          y_percent := pl.y_percent.getD 60
          width_percent := pl.width_percent.getD 30
          height_percent := pl.height_percent.getD 25
          type := item.type.getD "furniture item"
          color := item.color.getD "neutral" }
      else promptFallbackClause num_items idx (some item)
    | none => promptFallbackClause num_items idx (some item)
  | none => promptFallbackClause num_items idx none

/-- The list of placement clauses of `_create_multi_placement_prompt`
(nano_banana.py lines 470-488): one clause per index `0..num_items-1`. -/
def create_multi_placement_prompt (a : Analysis) (num_items : ℕ) : List Clause :=
  (List.range num_items).map (clauseFor a.furniture_items num_items)

/-- The wall instruction of `_create_prompt` (nano_banana.py lines 541-547):
present only for the exact values "right", "left" and "back". -/
def wallHint (wall_alignment : String) : Option String :=
  if wall_alignment = "right" then some "right wall"
  else if wall_alignment = "left" then some "left wall"
  else if wall_alignment = "back" then some "back wall"
  else none

/-- The rotation instruction of `_create_prompt` (nano_banana.py lines 537-539):
present only when the placement rotation is 90. -/
def rotationHint (p : PlacementDict) : Bool :=
  p.rotation.getD 0 = 90

/-- The geometry sentence of `_create_prompt` (nano_banana.py lines 529-535):
present only when all four percent fields are present. -/
def placementHint (p : PlacementDict) : Option (ℚ × ℚ × ℚ × ℚ) :=
  match p.x_percent, p.y_percent, p.width_percent, p.height_percent with
  | some x, some y, some w, some h => some (x, y, w, h)
  | _, _, _, _ => none

/-! ## Result polling (`_query_task_result`, nano_banana.py lines 394-457) -/

/-- One response of the Kie.ai record-info endpoint, as the loop body sees it. -/
inductive PollResponse where
  /-- HTTP round trip succeeded with `code == 200`: task `state`, the parsed
  `resultUrls` of `resultJson` (`none` when the field is absent), and the
  failure fields. -/
  | ok (state : String) (resultUrls : Option (List String)) (failCode failMsg : String)
  /-- HTTP round trip succeeded but `code != 200`, with its message. -/
  | badCode (message : String)
  /-- The HTTP request itself raised, with the exception text. -/
  | netError (msg : String)
deriving DecidableEq, Repr

/-- The ValueError text of the `state == "fail"` branch (line 443). -/
def failValueMsg (failCode failMsg : String) : String :=
  "Задача завершилась с ошибкой [" ++ failCode ++ "]: " ++ failMsg

/-- What one iteration of the polling loop does with a response. -/
inductive IterResult where
  | finished (url : String)
  | raised (msg : String)
  | inProgress
deriving DecidableEq, Repr

/-- The body of the polling loop (nano_banana.py lines 412-450), up to the
surrounding `except`: either a successful return, a raised exception message
(every raise in the body, including the `state == "fail"` one, lands in the
catch-all at line 452), or the in-progress path. -/
def classifyPoll (r : PollResponse) : IterResult :=
  match r with
  | .ok state resultUrls failCode failMsg =>
    if state = "success" then
      match resultUrls with
      | some (u :: _) => .finished u
      | some [] => .raised "В resultJson нет resultUrls"
      | none => .raised "Нет поля resultJson в ответе"
    else if state = "fail" then .raised (failValueMsg failCode failMsg)
    else .inProgress
  | .badCode message => .raised ("Ошибка опроса задачи: " ++ message)
  | .netError msg => .raised msg

/-- Terminal outcome of `_query_task_result`. -/
inductive QueryOutcome where
  /-- Returned the downloaded result (tracked by its URL). -/
  | success (url : String)
  /-- `raise Exception("Превышено время ожидания результата: " + str(e))`
  on the last attempt (line 454). -/
  | wrappedTimeout (innerMsg : String)
  /-- `raise TimeoutError(...)` after the loop (line 457). -/
  | timedOut
deriving DecidableEq, Repr

/-- The polling loop of `_query_task_result`: `poll` is the sequence of
responses, `maxAttempts` the bound (240 by default).  Returns the outcome
together with the number of poll requests issued and the total seconds
slept (`time.sleep(2)` per non-final iteration). -/
def query_task_result_go (poll : ℕ → PollResponse) (maxAttempts attempt polls sleepSecs : ℕ) :
    QueryOutcome × ℕ × ℕ :=
  if attempt < maxAttempts then
    match classifyPoll (poll attempt) with
    | .finished u => (.success u, polls + 1, sleepSecs)
    | .raised m =>
      if attempt = maxAttempts - 1 then
        (.wrappedTimeout ("Превышено время ожидания результата: " ++ m), polls + 1, sleepSecs)
      else
        query_task_result_go poll maxAttempts (attempt + 1) (polls + 1) (sleepSecs + 2)
    | .inProgress =>
      query_task_result_go poll maxAttempts (attempt + 1) (polls + 1) (sleepSecs + 2)
  else
    (.timedOut, polls, sleepSecs)
termination_by maxAttempts - attempt

/-- `_query_task_result` with its defaults: 240 attempts, 2-second interval. -/
def query_task_result (poll : ℕ → PollResponse) (maxAttempts : ℕ := 240) :
    QueryOutcome × ℕ × ℕ :=
  query_task_result_go poll maxAttempts 0 0 0

/-! ## Image utilities (backend/utils/image_utils.py) -/

/-- Dimension arithmetic of `limit_image_size` (image_utils.py lines 121-142):
a no-op when both sides are within the bound, otherwise a downscale whose
longest side is exactly the bound (`int` truncation on the short side). -/
def limit_image_size (max_long_side : ℕ) (d : ℕ × ℕ) : ℕ × ℕ :=
  let w := d.1
  let h := d.2
  if w ≤ max_long_side ∧ h ≤ max_long_side then (w, h)
  else if w ≥ h then (max_long_side, h * max_long_side / w)
  else (w * max_long_side / h, max_long_side)

/-- Per-item scaling of `create_furniture_collage` (image_utils.py
lines 100-104): downscale to `max_height` when taller, never upscale. -/
def scaleCollageItem (max_height : ℕ) (d : ℕ × ℕ) : ℕ × ℕ :=
  if d.2 > max_height then (d.1 * max_height / d.2, max_height) else d

/-- Left-to-right x positions of the collage items (image_utils.py
lines 111-115): the cursor starts at `padding` and advances by each
scaled width plus `padding`. -/
def collageXs (padding : ℕ) : ℕ → List ℕ → List ℕ
  | _, [] => []
  | x, w :: ws => x :: collageXs padding (x + w + padding) ws

/-- The geometry of the collage built by `create_furniture_collage`. -/
structure CollageLayout where
  canvasW : ℕ
  canvasH : ℕ
  scaled : List (ℕ × ℕ)
  positions : List (ℕ × ℕ)
  background : ℕ × ℕ × ℕ × ℕ
deriving DecidableEq, Repr

/-- `create_furniture_collage` (image_utils.py lines 73-118) on the list of
input image dimensions: raises on an empty list, otherwise scales each item,
sizes the canvas, and places items left to right, vertically centered, on an
opaque white RGBA canvas. -/
def create_furniture_collage (dims : List (ℕ × ℕ)) (max_height padding : ℕ) :
    Except String CollageLayout :=
  match dims with
  | [] => .error "Нужен хотя бы один путь к изображению"
  | _ =>
    let scaled := dims.map (scaleCollageItem max_height)
    let total_w := (scaled.map Prod.fst).sum + padding * (dims.length + 1)
    let max_h := (scaled.map Prod.snd).foldl max 0 + padding * 2
    let xs := collageXs padding padding (scaled.map Prod.fst)
    .ok
      { canvasW := total_w
        canvasH := max_h
        scaled := scaled
        positions := xs.zip (scaled.map (fun s => (max_h - s.2) / 2))
        background := (255, 255, 255, 255) }

/-! ## Trial-usage store (backend/database.py)

`app.py` calls `db.get_generate_count(client_ip)`, but `database.py` in the
repository defines only the visits table (`init_db`, `log_visit`,
`get_visits`); the per-client generation counter itself is not in the
sources.  It is therefore modelled from the spec. -/

/-- Per-client usage counts, keyed by client identifier. -/
abbrev Store := List (String × ℕ)

/-- Modelled from the spec: `get_generate_count` is absent from
backend/database.py; §4.5 says the check "reads current usage count for
clientId", so the store maps a client identifier to its count (0 when the
client has no record). -/
def get_generate_count (s : Store) (clientId : String) : ℕ :=
  match s.find? (fun e => e.1 = clientId) with
  | some e => e.2
  | none => 0

/-- Modelled from the spec: the increment side of the counter is absent from
the sources; §3 (TrialUsageRecord) says the count is "incremented once per
successful generate call, keyed by client IP" and never decremented. -/
def recordGeneration (s : Store) (clientId : String) : Store :=
  match s with
  | [] => [(clientId, 1)]
  | e :: rest =>
    if e.1 = clientId then (e.1, e.2 + 1) :: rest
    else e :: recordGeneration rest clientId

/-! ## The generate endpoint (backend/app.py lines 266-463) -/

/-- Parse outcome of the `furniture_image_paths` form field
(`json.loads` plus the `isinstance(..., list)` check). -/
inductive ParsedPaths where
  /-- `json.loads` raised, with the exception text. -/
  | parseError (msg : String)
  /-- Valid JSON that is not a list. -/
  | notList
  /-- A JSON list of path strings. -/
  | paths (xs : List String)
deriving DecidableEq, Repr

instance {ε α : Type} [DecidableEq ε] [DecidableEq α] : DecidableEq (Except ε α) :=
  fun a b =>
    match a, b with
    | .ok x, .ok y =>
      if h : x = y then .isTrue (by rw [h]) else .isFalse (fun hh => h (Except.ok.inj hh))
    | .ok _, .error _ => .isFalse (fun hh => Except.noConfusion hh)
    | .error _, .ok _ => .isFalse (fun hh => Except.noConfusion hh)
    | .error x, .error y =>
      if h : x = y then .isTrue (by rw [h]) else .isFalse (fun hh => h (Except.error.inj hh))

/-- A generate request together with the oracle values of its two network
effects: the vision-analysis outcome and the dimensions of the image the
generative backend composes. -/
structure GenRequest where
  forwardedFor : Option String := none
  clientHost : Option String := none
  /-- Width and height of the room image (`PIL.Image.open(...).size`). -/
  roomDims : ℤ × ℤ := (1000, 800)
  furniture_image_paths : ParsedPaths
  mode : String := "auto"
  placement_mode : String := "place"
  replace_what : Option String := none
  manual_box_x : Option ℤ := none
  manual_box_y : Option ℤ := none
  manual_box_w : Option ℤ := none
  manual_box_h : Option ℤ := none
  manual_x : Option ℤ := none
  manual_y : Option ℤ := none
  furniture_rotation : ℤ := 0
  wall_alignment : String := "auto"
  /-- Oracle: what `gpt4_analyzer.analyze_multi_furniture_placement` does
  (`.error` = any raised exception, with its text). -/
  analysisResult : Except String Analysis := .error "network error"
  /-- Oracle: dimensions of the image the composition backend returns. -/
  composeDims : ℕ × ℕ := (1000, 800)
deriving DecidableEq, Repr

/-- Python `str.strip()`: drop whitespace from both ends. -/
def pyStrip (s : String) : String :=
  ⟨(((s.data.dropWhile Char.isWhitespace).reverse).dropWhile Char.isWhitespace).reverse⟩

/-- Python `str.lower()` (ASCII case, which is all the code compares). -/
def pyLower (s : String) : String :=
  ⟨s.data.map Char.toLower⟩

/-- Python `s.split(",")[0]`: the prefix before the first comma. -/
def firstCommaField (s : String) : String :=
  ⟨s.data.takeWhile (fun c => c ≠ ',')⟩

/-- Client identifier derivation (app.py line 295): first comma-separated
entry of `x-forwarded-for` after stripping, else the socket peer, else "". -/
def deriveClientId (req : GenRequest) : String :=
  let first := pyStrip (firstCommaField (pyStrip (req.forwardedFor.getD "")))
  if first ≠ "" then first else req.clientHost.getD ""

/-- Detail string of the 403 quota rejection (app.py lines 298-301). -/
def quotaDetail (used limit : ℕ) : String :=
  "Пробный период: использовано " ++ toString used ++ " из " ++ toString limit ++
    " бесплатных визуализаций. Для продолжения свяжитесь с нами."

/-- An exception escaping the body of the endpoint handler before the
catch-all at line 461: either a deliberate `HTTPException(status, detail)`
or any other exception with its text. -/
inductive InnerError where
  | http (status : ℕ) (detail : String)
  | exc (msg : String)
deriving DecidableEq, Repr

/-- `str(e)` of an inner exception: starlette HTTPExceptions stringify as
"status: detail". -/
def InnerError.text : InnerError → String
  | .http status detail => toString status ++ ": " ++ detail
  | .exc msg => msg

/-- The catch-all at app.py lines 461-463: every exception is re-raised as
`HTTPException(500, "Ошибка генерации: " + str(e))`. -/
def wrapError (e : InnerError) : ℕ × String :=
  (500, "Ошибка генерации: " ++ e.text)

/-- Which composition call the endpoint dispatched, with the data the
corresponding prompt builder actually uses. -/
inductive ComposeInvocation where
  /-- `place_furniture_replace` (replace mode), with the stripped hint. -/
  | replaceCall (replaceWhat : Option String)
  /-- Single-item path of `place_multi_furniture`: the placement dict used
  by `_create_prompt`. -/
  | singleCall (placement : PlacementDict)
  /-- Collage path of `place_multi_furniture`: the clauses used by
  `_create_multi_placement_prompt`. -/
  | collageCall (clauses : List Clause)
deriving DecidableEq, Repr

/-- The successful response body of `/api/generate` (the fields the claims
are about). -/
structure GenResponse where
  resultDims : ℕ × ℕ
  preserves_original : Bool
  analysis : Analysis
  furniture_count : ℕ
deriving DecidableEq, Repr

/-- The hard-coded analysis of the replace-mode response
(app.py lines 327-331). -/
def replaceModeAnalysis : Analysis :=
  { room_analysis := { style := some "modern", lighting := some "natural" }
    furniture_analysis := { type := some "мебель", style := some "современный",
                            color := some "нейтральный" }
    furniture_items := [{ index := 0, type := some "мебель",
                          placement := some ({} : PlacementDict) }] }

/-- The manual box of the request (app.py lines 346-355): only in
`mode == "manual"` and only when all four bbox fields are present. -/
def manualBoxOf (req : GenRequest) : Option (ℤ × ℤ × ℤ × ℤ) :=
  if req.mode = "manual" then
    match req.manual_box_x, req.manual_box_y, req.manual_box_w, req.manual_box_h with
    | some x, some y, some w, some h => some (x, y, w, h)
    | _, _, _, _ => none
  else none

/-- Steps 1-2 of place mode after the count checks (app.py lines 357-427):
analysis with fallback, manual-box application with wall inference, rotation
validation, and the final rotation/wall overwrite. -/
def resolvePlacementAnalysis (req : GenRequest) (n : ℕ) : Except InnerError Analysis :=
  let a0 := match req.analysisResult with
    | .ok a => a
    | .error _ => fallbackAnalysis n
  let step := match manualBoxOf req with
    | some (x0, y0, w0, h0) =>
      let c := clampBox x0 y0 w0 h0 req.roomDims.1 req.roomDims.2
      let a1 := applyManualBox a0 c.1 c.2.1 c.2.2.1 c.2.2.2 req.roomDims.1 req.roomDims.2
      let wall := if req.wall_alignment = "auto" then
          inferWallAlignment c.1 c.2.2.1 c.2.1 req.roomDims.1
        else req.wall_alignment
      (a1, wall)
    | none => (a0, req.wall_alignment)
  if req.furniture_rotation = 0 ∨ req.furniture_rotation = 90 then
    .ok (finalizeRotationWall step.1 req.furniture_rotation step.2)
  else
    .error (.http 400 "furniture_rotation должен быть 0 или 90")

/-- The body of `generate_placement` inside its `try` (app.py lines 293-459),
producing either an inner exception or the response together with the
composition call it made. -/
def generateInner (limit : ℕ) (store : Store) (req : GenRequest) :
    Except InnerError (GenResponse × ComposeInvocation) :=
  let used := get_generate_count store (deriveClientId req)
  if used ≥ limit then
    .error (.http 403 (quotaDetail used limit))
  else
    match req.furniture_image_paths with
    | .parseError msg => .error (.exc msg)
    | .notList => .error (.http 400 "furniture_image_paths должен быть непустым массивом")
    | .paths fps =>
      if fps.length = 0 then
        .error (.http 400 "furniture_image_paths должен быть непустым массивом")
      else if pyLower (pyStrip req.placement_mode) = "replace" then
        if fps.length ≠ 1 then
          .error (.http 400 "В режиме «Заменить мебель» выберите ровно один предмет (новую мебель)")
        else
          .ok ({ resultDims := limit_image_size 1200 req.composeDims,
                 preserves_original := false,
                 analysis := replaceModeAnalysis, furniture_count := 1 },
               .replaceCall (match pyStrip (req.replace_what.getD "") with
                 | "" => none
                 | s => some s))
      else if fps.length > 5 then
        .error (.http 400 "Максимум 5 предметов мебели")
      else
        match resolvePlacementAnalysis req fps.length with
        | .error e => .error e
        | .ok analysis =>
          .ok ({ resultDims := limit_image_size 1200 req.composeDims,
                 preserves_original := false,
                 analysis := analysis, furniture_count := fps.length },
               if fps.length = 1 then
                 ComposeInvocation.singleCall (singleCallPlacement analysis)
               else
                 ComposeInvocation.collageCall (create_multi_placement_prompt analysis fps.length))

/-- Outcome of one call of the endpoint. -/
structure GenOutcome where
  /-- What the HTTP caller sees: the response, or a status-detail pair. -/
  response : Except (ℕ × String) GenResponse
  /-- The composition call made, if any. -/
  composeCall : Option ComposeInvocation
  /-- The usage store after the call. -/
  store : Store
deriving DecidableEq, Repr

/-- `generate_placement` (app.py lines 266-463): the inner body under the
catch-all wrapper, plus (modelled from the spec, §3 TrialUsageRecord) the
per-client increment on success. -/
def generate_placement (limit : ℕ) (store : Store) (req : GenRequest) : GenOutcome :=
  match generateInner limit store req with
  | .ok (resp, inv) =>
    { response := .ok resp, composeCall := some inv,
      store := recordGeneration store (deriveClientId req) }
  | .error e =>
    { response := .error (wrapError e), composeCall := none, store := store }

/-- Default of the `TRIAL_LIMIT` environment variable (app.py line 263). -/
def TRIAL_LIMIT : ℕ := 3

/-- Sequential processing of several requests against one store. -/
def processRequests (limit : ℕ) : Store → List GenRequest → List GenOutcome
  | _, [] => []
  | store, req :: rest =>
    let out := generate_placement limit store req
    out :: processRequests limit out.store rest

/-! # Helper lemmas -/

lemma get_generate_count_record_self (s : Store) (c : String) :
    get_generate_count (recordGeneration s c) c = get_generate_count s c + 1 := by
  induction s with
  | nil => simp [recordGeneration, get_generate_count, List.find?]
  | cons e rest ih =>
    by_cases h : e.1 = c
    · simp [recordGeneration, get_generate_count, List.find?, h]
    · simp only [recordGeneration, if_neg h]
      simpa [get_generate_count, List.find?, h] using ih

lemma get_generate_count_record_other (s : Store) (c other : String) (hne : other ≠ c) :
    get_generate_count (recordGeneration s c) other = get_generate_count s other := by
  induction s with
  | nil => simp [recordGeneration, get_generate_count, List.find?, hne, Ne.symm hne]
  | cons e rest ih =>
    by_cases h : e.1 = c
    · have h3 : ¬ (e.1 = other) := by rw [h]; exact fun hh => hne hh.symm
      simp [recordGeneration, get_generate_count, List.find?, h, h3, hne, Ne.symm hne]
    · by_cases h2 : e.1 = other
      · simp [recordGeneration, get_generate_count, List.find?, h, h2, hne, Ne.symm hne]
      · simp only [recordGeneration, if_neg h]
        simpa [get_generate_count, List.find?, h2] using ih

lemma generate_placement_of_inner_ok {limit : ℕ} {store : Store} {req : GenRequest}
    {resp : GenResponse} {inv : ComposeInvocation}
    (h : generateInner limit store req = .ok (resp, inv)) :
    generate_placement limit store req =
      { response := .ok resp, composeCall := some inv,
        store := recordGeneration store (deriveClientId req) } := by
  simp [generate_placement, h]

lemma generate_placement_of_inner_err {limit : ℕ} {store : Store} {req : GenRequest}
    {e : InnerError} (h : generateInner limit store req = .error e) :
    generate_placement limit store req =
      { response := .error (wrapError e), composeCall := none, store := store } := by
  simp [generate_placement, h]

lemma generateInner_quota {limit : ℕ} {store : Store} {req : GenRequest}
    (h : get_generate_count store (deriveClientId req) ≥ limit) :
    generateInner limit store req =
      .error (.http 403 (quotaDetail (get_generate_count store (deriveClientId req)) limit)) := by
  simp [generateInner, h]

lemma generateInner_place (limit : ℕ) (store : Store) (req : GenRequest)
    (fps : List String) {a2 : Analysis}
    (hq : get_generate_count store (deriveClientId req) < limit)
    (hp : req.furniture_image_paths = .paths fps)
    (h0 : fps.length ≠ 0)
    (hrep : pyLower (pyStrip req.placement_mode) ≠ "replace")
    (h5 : fps.length ≤ 5)
    (hres : resolvePlacementAnalysis req fps.length = .ok a2) :
    generateInner limit store req = .ok
      ({ resultDims := limit_image_size 1200 req.composeDims, preserves_original := false,
         analysis := a2, furniture_count := fps.length },
       if fps.length = 1 then
         ComposeInvocation.singleCall (singleCallPlacement a2)
       else
         ComposeInvocation.collageCall (create_multi_placement_prompt a2 fps.length)) := by
  have hq' : ¬ get_generate_count store (deriveClientId req) ≥ limit := by omega
  have h5' : ¬ fps.length > 5 := by omega
  simp [generateInner, hq', hp, h0, hrep, h5', hres]

lemma resolvePlacementAnalysis_no_manual {req : GenRequest} {a0 : Analysis}
    (hok : req.analysisResult = .ok a0)
    (hman : manualBoxOf req = none)
    (hrot : req.furniture_rotation = 0 ∨ req.furniture_rotation = 90) :
    resolvePlacementAnalysis req n =
      .ok (finalizeRotationWall a0 req.furniture_rotation req.wall_alignment) := by
  simp [resolvePlacementAnalysis, hok, hman, hrot]

lemma resolvePlacementAnalysis_fallback (req : GenRequest) (n : ℕ) {emsg : String}
    (hfail : req.analysisResult = .error emsg)
    (hman : manualBoxOf req = none)
    (hrot : req.furniture_rotation = 0 ∨ req.furniture_rotation = 90) :
    resolvePlacementAnalysis req n =
      .ok (finalizeRotationWall (fallbackAnalysis n) req.furniture_rotation req.wall_alignment) := by
  simp [resolvePlacementAnalysis, hfail, hman, hrot]

/-! # C1 — trial quota guard -/

/-- A place-mode request from client 1.2.3.4 whose vision call fails and
whose composition returns a 2000x1000 image. -/
def quotaReqA : GenRequest :=
  { forwardedFor := some "1.2.3.4"
    furniture_image_paths := .paths ["f1"]
    analysisResult := .error "boom"
    composeDims := (2000, 1000) }

/-- The same request coming from a different client. -/
def quotaReqB : GenRequest := { quotaReqA with forwardedFor := some "9.9.9.9" }

/-- Three requests from A, one from B, then a fourth from A. -/
def quotaScenario : List GenRequest := [quotaReqA, quotaReqA, quotaReqA, quotaReqB, quotaReqA]

/-- C1: on every generate request the usage count of the derived client
identifier is read and compared to the limit; at or past the limit the
request is rejected with the message reporting used and limit counts and no
composition call is made; a successful call increments exactly this client's
count by one; with limit 3, three successful generations from one client and
one from another client leave the other client unaffected, and the fourth
request of the first client is rejected reporting used=3 of limit=3. -/
theorem trial_quota_guard (limit : ℕ) (store : Store) (req : GenRequest) :
    (get_generate_count store (deriveClientId req) ≥ limit →
      generate_placement limit store req =
        { response := .error (wrapError (.http 403
            (quotaDetail (get_generate_count store (deriveClientId req)) limit))),
          composeCall := none, store := store }) ∧
    (wrapError (.http 403 (quotaDetail 3 3)) = (500,
      "Ошибка генерации: 403: Пробный период: использовано 3 из 3 бесплатных визуализаций. Для продолжения свяжитесь с нами.")) ∧
    (∀ resp, (generate_placement limit store req).response = .ok resp →
      get_generate_count (generate_placement limit store req).store (deriveClientId req) =
        get_generate_count store (deriveClientId req) + 1) ∧
    (∀ other, other ≠ deriveClientId req →
      get_generate_count (generate_placement limit store req).store other =
        get_generate_count store other) ∧
    ((processRequests TRIAL_LIMIT [] quotaScenario).map (fun o => o.response.isOk) =
        [true, true, true, true, false]) ∧
    ((processRequests TRIAL_LIMIT [] quotaScenario).getLast?.map
        (fun o => (o.response, o.composeCall)) =
      some (.error (wrapError (.http 403 (quotaDetail 3 3))), none)) := by
  refine ⟨?_, by decide, ?_, ?_, by decide, by decide⟩
  · intro h
    exact generate_placement_of_inner_err (generateInner_quota h)
  · intro resp h
    cases hinner : generateInner limit store req with
    | error e =>
      rw [generate_placement_of_inner_err hinner] at h
      exact absurd h (by simp)
    | ok p =>
      obtain ⟨r, i⟩ := p
      rw [generate_placement_of_inner_ok hinner]
      simp [get_generate_count_record_self]
  · intro other hne
    cases hinner : generateInner limit store req with
    | error e =>
      rw [generate_placement_of_inner_err hinner]
    | ok p =>
      obtain ⟨r, i⟩ := p
      rw [generate_placement_of_inner_ok hinner]
      simp [get_generate_count_record_other _ _ _ hne]

/-- Witness for C1: a client already at the limit is rejected with the
quota message and the store untouched. -/
theorem trial_quota_guard_witness :
    get_generate_count [("1.2.3.4", 3)] (deriveClientId quotaReqA) ≥ 3 ∧
    generate_placement 3 [("1.2.3.4", 3)] quotaReqA =
      { response := .error (wrapError (.http 403
          (quotaDetail (get_generate_count [("1.2.3.4", 3)] (deriveClientId quotaReqA)) 3))),
        composeCall := none, store := [("1.2.3.4", 3)] } :=
  ⟨by decide, (trial_quota_guard 3 [("1.2.3.4", 3)] quotaReqA).1 (by decide)⟩

/-! # C5 — wall inference from the manual box margins -/

/-- C5 counterexample: for roomW=1000, box=(600,·,300,·) with y=100 the
margins are left=600, right=100, top=100, so neither side margin is
strictly the smallest of the three (the right margin ties with the top
margin); the claim then requires "back", but the code returns "right"
because the `m == right_margin` branch is checked first. -/
theorem infer_wall_tie_counterexample :
    (¬ ((1000 - (600 + 300) : ℤ) < 600 ∧ (1000 - (600 + 300) : ℤ) < 100)) ∧
    (¬ ((600 : ℤ) < 1000 - (600 + 300) ∧ (600 : ℤ) < 100)) ∧
    inferWallAlignment 600 300 100 1000 = "right" ∧
    "right" ≠ "back" := by
  refine ⟨by omega, by omega, ?_, by decide⟩
  decide

/-- C5 amended: `inferWallAlignment` is a pure function of the box and room
width; it returns "right" whenever the right margin equals the minimum of
the three margins (ties included), otherwise "left" whenever the left
margin equals the minimum, and "back" exactly when the top margin is
strictly smaller than both side margins; the spec example
(roomW=1000, box=(700,10,200,200)) resolves to "back". -/
theorem infer_wall_alignment_amended (cx cw cy rw : ℤ) :
    (inferWallAlignment cx cw cy rw = "right" ↔
      rw - (cx + cw) ≤ cx ∧ rw - (cx + cw) ≤ cy) ∧
    (inferWallAlignment cx cw cy rw = "left" ↔
      cx < rw - (cx + cw) ∧ cx ≤ cy) ∧
    (inferWallAlignment cx cw cy rw = "back" ↔
      cy < cx ∧ cy < rw - (cx + cw)) ∧
    inferWallAlignment 700 200 10 1000 = "back" := by
  refine ⟨?_, ?_, ?_, by decide⟩ <;>
  · simp only [inferWallAlignment, min_def]
    split_ifs <;>
      first
        | exact iff_of_true rfl (by omega)
        | exact iff_of_false (by decide) (by omega)

/-! # C3 — placement clauses of the multi-item prompt -/

/-- C3 counterexample: with no `furniture_items` and itemCount 2, the
backfilled clause of index 1 has y_percent 65 (55 + (1%2)*10), while the
section 4.2 degraded-layout formula gives y_percent 63 (55 + (1%2)*8): the
prompt builder does not backfill with the same formula. -/
theorem describe_placements_counterexample :
    ((create_multi_placement_prompt {} 2).map (fun c => c.y_percent) = [55, 65]) ∧
    (fallbackItemPlacement 2 1).y_percent = some 63 ∧
    (65 : ℚ) ≠ 63 := by
  refine ⟨?_, ?_, by norm_num⟩
  · show (List.map _ (List.range 2)).map _ = _
    rw [show List.range 2 = [0, 1] from rfl]
    simp only [List.map_cons, List.map_nil, clauseFor, lookupItem, List.find?_nil,
      promptFallbackClause]
    norm_num
  · simp only [fallbackItemPlacement]
    norm_num

/-- C3 amended: the prompt builder always produces exactly itemCount
clauses, one per index 0..itemCount-1; an entry of `furniture_items` whose
`index` field matches and whose placement is non-empty is used as-is
(missing sub-fields defaulting to 50/60/30/25); a missing entry is
backfilled with x = 25 + i*50/max(1,n-1), y = 55 + (i%2)*10 (not *8),
w = 30/n, h = 25/n; entries whose index is outside 0..itemCount-1 are
ignored. -/
theorem describe_placements_amended (a : Analysis) (n : ℕ) :
    (create_multi_placement_prompt a n).length = n ∧
    (∀ i, i < n → (create_multi_placement_prompt a n)[i]? =
        some (clauseFor a.furniture_items n i)) ∧
    (∀ i item pl, lookupItem a.furniture_items i = some item →
        item.placement = some pl → pl.isTruthy = true →
        clauseFor a.furniture_items n i =
          { x_percent := pl.x_percent.getD 50, y_percent := pl.y_percent.getD 60,
            width_percent := pl.width_percent.getD 30,
            height_percent := pl.height_percent.getD 25,
            type := item.type.getD "furniture item", color := item.color.getD "neutral" }) ∧
    (∀ i, lookupItem a.furniture_items i = none →
        clauseFor a.furniture_items n i = promptFallbackClause n i none) ∧
    (∀ i it, (promptFallbackClause n i it).x_percent =
          25 + ((i : ℚ) * 50) / ((max 1 (n - 1) : ℕ) : ℚ) ∧
        (promptFallbackClause n i it).y_percent = 55 + ((i % 2 : ℕ) : ℚ) * 10 ∧
        (promptFallbackClause n i it).width_percent = 30 / (n : ℚ) ∧
        (promptFallbackClause n i it).height_percent = 25 / (n : ℚ)) ∧
    (∀ extra : FurnitureItem, (extra.index < 0 ∨ (n : ℤ) ≤ extra.index) →
        create_multi_placement_prompt
            { a with furniture_items := a.furniture_items ++ [extra] } n =
          create_multi_placement_prompt a n) := by
  refine ⟨?_, ?_, ?_, ?_, ?_, ?_⟩
  · simp [create_multi_placement_prompt]
  · intro i hi
    simp [create_multi_placement_prompt, List.getElem?_map, List.getElem?_range hi]
  · intro i item pl hlook hpl htr
    simp [clauseFor, hlook, hpl, htr]
  · intro i hlook
    simp [clauseFor, hlook]
  · intro i it
    exact ⟨rfl, rfl, rfl, rfl⟩
  · intro extra hout
    simp only [create_multi_placement_prompt]
    refine List.map_congr_left ?_
    intro i hi
    have hi' : i < n := List.mem_range.mp hi
    have hne : (decide (extra.index = (i : ℤ))) = false := by
      simp only [decide_eq_false_iff_not]
      intro hcontra
      rw [hcontra] at hout
      rcases hout with h | h <;> omega
    have hlook : lookupItem (a.furniture_items ++ [extra]) i = lookupItem a.furniture_items i := by
      simp [lookupItem, List.find?_append, List.find?, hne]
    simp [clauseFor, hlook]

/-- Witness for C3 amended: index 0 of an empty item list is backfilled,
and appending an item with index 5 changes nothing for itemCount 1. -/
theorem describe_placements_amended_witness :
    clauseFor ([] : List FurnitureItem) 3 0 = promptFallbackClause 3 0 none ∧
    create_multi_placement_prompt { furniture_items := [{ index := 5 }] } 1 =
      create_multi_placement_prompt {} 1 :=
  ⟨(describe_placements_amended {} 3).2.2.2.1 0 rfl,
   (describe_placements_amended {} 1).2.2.2.2.2 { index := 5 } (Or.inr (by decide))⟩

/-! # C4 — result polling loop -/

lemma query_go_const_raised (r : PollResponse) (m : String)
    (hr : classifyPoll r = .raised m) (maxA : ℕ) :
    ∀ k attempt polls sleeps, maxA - attempt = k → attempt < maxA →
      query_task_result_go (fun _ => r) maxA attempt polls sleeps =
        (.wrappedTimeout ("Превышено время ожидания результата: " ++ m),
         polls + (maxA - attempt), sleeps + 2 * (maxA - attempt - 1)) := by
  intro k
  induction k with
  | zero =>
    intro attempt polls sleeps hk hlt
    omega
  | succ k ih =>
    intro attempt polls sleeps hk hlt
    rw [query_task_result_go]
    simp only [if_pos hlt, hr]
    by_cases hlast : attempt = maxA - 1
    · have h1 : maxA - attempt = 1 := by omega
      rw [if_pos hlast, h1]
      norm_num
    · rw [if_neg hlast, ih (attempt + 1) (polls + 1) (sleeps + 2) (by omega) (by omega)]
      have e1 : polls + 1 + (maxA - (attempt + 1)) = polls + (maxA - attempt) := by omega
      have e2 : sleeps + 2 + 2 * (maxA - (attempt + 1) - 1) =
          sleeps + 2 * (maxA - attempt - 1) := by omega
      rw [e1, e2]

lemma query_go_const_inprogress (r : PollResponse)
    (hr : classifyPoll r = .inProgress) (maxA : ℕ) :
    ∀ k attempt polls sleeps, maxA - attempt = k →
      query_task_result_go (fun _ => r) maxA attempt polls sleeps =
        (.timedOut, polls + (maxA - attempt), sleeps + 2 * (maxA - attempt)) := by
  intro k
  induction k with
  | zero =>
    intro attempt polls sleeps hk
    rw [query_task_result_go]
    rw [if_neg (by omega), hk]
    norm_num
  | succ k ih =>
    intro attempt polls sleeps hk
    have hlt : attempt < maxA := by omega
    rw [query_task_result_go]
    simp only [if_pos hlt, hr]
    rw [ih (attempt + 1) (polls + 1) (sleeps + 2) (by omega)]
    have e1 : polls + 1 + (maxA - (attempt + 1)) = polls + (maxA - attempt) := by omega
    have e2 : sleeps + 2 + 2 * (maxA - (attempt + 1)) = sleeps + 2 * (maxA - attempt) := by
      omega
    rw [e1, e2]

lemma query_go_polls_le (poll : ℕ → PollResponse) (maxA : ℕ) :
    ∀ k attempt polls sleeps, maxA - attempt = k →
      (query_task_result_go poll maxA attempt polls sleeps).2.1 ≤ polls + (maxA - attempt) := by
  intro k
  induction k with
  | zero =>
    intro attempt polls sleeps hk
    rw [query_task_result_go, if_neg (by omega)]
    dsimp only
    omega
  | succ k ih =>
    intro attempt polls sleeps hk
    have hlt : attempt < maxA := by omega
    rw [query_task_result_go]
    simp only [if_pos hlt]
    cases hcl : classifyPoll (poll attempt) with
    | finished u =>
      dsimp only
      omega
    | raised m =>
      dsimp only
      by_cases hlast : attempt = maxA - 1
      · rw [if_pos hlast]
        dsimp only
        omega
      · rw [if_neg hlast]
        have := ih (attempt + 1) (polls + 1) (sleeps + 2) (by omega)
        omega
    | inProgress =>
      dsimp only
      have := ih (attempt + 1) (polls + 1) (sleeps + 2) (by omega)
      omega

/-- C4 amended: the polling loop distinguishes a successful state (fetch
the result reference, exit at once) from everything else; unknown or absent
states are treated as in-progress with a fixed 2-second sleep per
iteration, bounded by the attempt count, after which a timeout error is
surfaced.  A "fail" state, however, does not exit the loop: the raised
failure is caught by the same catch-all that guards transient poll errors,
polling continues, and the backend failure reason only surfaces, wrapped in
the timeout-style terminal error, once the attempt bound is reached. -/
theorem query_task_result_amended :
    (∀ (poll : ℕ → PollResponse) (u : String) rest c m maxA, 0 < maxA →
      poll 0 = .ok "success" (some (u :: rest)) c m →
      query_task_result poll maxA = (.success u, 1, 0)) ∧
    (∀ s urls c m, s ≠ "success" → s ≠ "fail" →
      classifyPoll (.ok s urls c m) = .inProgress) ∧
    (∀ r maxA, classifyPoll r = .inProgress →
      query_task_result (fun _ => r) maxA = (.timedOut, maxA, 2 * maxA)) ∧
    (∀ c m maxA, 0 < maxA →
      query_task_result (fun _ => .ok "fail" none c m) maxA =
        (.wrappedTimeout ("Превышено время ожидания результата: " ++ failValueMsg c m),
         maxA, 2 * (maxA - 1))) ∧
    (∀ poll maxA, (query_task_result poll maxA).2.1 ≤ maxA) := by
  refine ⟨?_, ?_, ?_, ?_, ?_⟩
  · intro poll u rest c m maxA h0 hp
    rw [query_task_result, query_task_result_go]
    simp only [if_pos h0, hp, classifyPoll]
    norm_num
  · intro s urls c m hs hf
    simp [classifyPoll, hs, hf]
  · intro r maxA hr
    have := query_go_const_inprogress r hr maxA (maxA - 0) 0 0 0 rfl
    simpa [query_task_result] using this
  · intro c m maxA h0
    have hcl : classifyPoll (.ok "fail" none c m) = .raised (failValueMsg c m) := by
      simp [classifyPoll]
    have := query_go_const_raised _ _ hcl maxA (maxA - 0) 0 0 0 rfl (by omega)
    simpa [query_task_result] using this
  · intro poll maxA
    have := query_go_polls_le poll maxA (maxA - 0) 0 0 0 rfl
    simpa [query_task_result] using this

/-- Witness for C4 amended: a first-poll success exits after one poll with
no sleep; a constantly queued task times out at the bound of 2 polls. -/
theorem query_task_result_amended_witness :
    query_task_result (fun _ => PollResponse.ok "success" (some ["res-url"]) "" "") 2 =
      (.success "res-url", 1, 0) ∧
    query_task_result (fun _ => PollResponse.ok "queued" none "" "") 2 = (.timedOut, 2, 4) :=
  ⟨query_task_result_amended.1 _ "res-url" [] "" "" 2 (by omega) rfl,
   query_task_result_amended.2.2.1 _ 2 (by decide)⟩

/-- C4 counterexample: a task that reports state "fail" on the first poll
does not make the loop surface the failure and exit: with the default bound
of 240 attempts the loop issues all 240 polls and the failure reason only
appears wrapped inside the timeout error at the very end. -/
theorem query_task_result_fail_counterexample :
    (query_task_result (fun _ => PollResponse.ok "fail" none "501" "boom") 240).2.1 = 240 ∧
    (240 : ℕ) ≠ 1 ∧
    (query_task_result (fun _ => PollResponse.ok "fail" none "501" "boom") 240).1 =
      .wrappedTimeout ("Превышено время ожидания результата: " ++ failValueMsg "501" "boom") := by
  have hcl : classifyPoll (.ok "fail" none "501" "boom") = .raised (failValueMsg "501" "boom") := by
    simp [classifyPoll]
  have h := query_go_const_raised _ _ hcl 240 240 0 0 0 rfl (by omega)
  rw [query_task_result, h]
  norm_num

/-! # C8 — result downscaling -/

lemma nat_scale_le_self (a b c : ℕ) (hbc : b ≤ c) : a * b / c ≤ a := by
  rcases Nat.eq_zero_or_pos c with hc | hc
  · subst hc
    simp
  · calc a * b / c ≤ a * c / c := Nat.div_le_div_right (Nat.mul_le_mul_left a hbc)
    _ = a := Nat.mul_div_cancel a hc

lemma nat_scale_le_bound (a b c : ℕ) (hac : a ≤ c) (hc : 0 < c) : a * b / c ≤ b := by
  calc a * b / c ≤ c * b / c := Nat.div_le_div_right (Nat.mul_le_mul_right b hac)
  _ = b := Nat.mul_div_cancel_left b hc

lemma generateInner_ok_resultDims {limit : ℕ} {store : Store} {req : GenRequest}
    {r : GenResponse} {i : ComposeInvocation}
    (h : generateInner limit store req = .ok (r, i)) :
    r.resultDims = limit_image_size 1200 req.composeDims ∧ r.preserves_original = false := by
  simp only [generateInner] at h
  by_cases hq : get_generate_count store (deriveClientId req) ≥ limit
  · rw [if_pos hq] at h
    exact absurd h (by simp)
  · rw [if_neg hq] at h
    rcases hfp : req.furniture_image_paths with msg | _ | fps <;>
      simp only [hfp] at h
    · exact absurd h (by simp)
    · exact absurd h (by simp)
    · by_cases h0 : fps.length = 0
      · rw [if_pos h0] at h
        exact absurd h (by simp)
      · rw [if_neg h0] at h
        by_cases hrep : pyLower (pyStrip req.placement_mode) = "replace"
        · rw [if_pos hrep] at h
          by_cases h1 : fps.length ≠ 1
          · rw [if_pos h1] at h
            exact absurd h (by simp)
          · rw [if_neg h1] at h
            simp only [Except.ok.injEq, Prod.mk.injEq] at h
            rw [← h.1]
            exact ⟨rfl, rfl⟩
        · rw [if_neg hrep] at h
          by_cases h5 : fps.length > 5
          · rw [if_pos h5] at h
            exact absurd h (by simp)
          · rw [if_neg h5] at h
            rcases hres : resolvePlacementAnalysis req fps.length with e | a2 <;>
              simp only [hres] at h
            · exact absurd h (by simp)
            · simp only [Except.ok.injEq, Prod.mk.injEq] at h
              rw [← h.1]
              exact ⟨rfl, rfl⟩

/-- C8: `limit_image_size` with bound 1200 is idempotent, never upscales,
is a no-op on images already within the bound, maps 2000x1000 to exactly
1200x600, brings any oversized image to a longest side of exactly 1200,
and every successful generation (place or replace mode) returns result
dimensions equal to `limit_image_size` applied to the composed image. -/
theorem limit_image_size_spec :
    (∀ d : ℕ × ℕ, limit_image_size 1200 (limit_image_size 1200 d) = limit_image_size 1200 d) ∧
    (∀ d : ℕ × ℕ, (limit_image_size 1200 d).1 ≤ d.1 ∧ (limit_image_size 1200 d).2 ≤ d.2) ∧
    (∀ d : ℕ × ℕ, d.1 ≤ 1200 → d.2 ≤ 1200 → limit_image_size 1200 d = d) ∧
    limit_image_size 1200 (2000, 1000) = (1200, 600) ∧
    (∀ d : ℕ × ℕ, ¬ (d.1 ≤ 1200 ∧ d.2 ≤ 1200) →
      max (limit_image_size 1200 d).1 (limit_image_size 1200 d).2 = 1200) ∧
    (∀ (limit : ℕ) (store : Store) (req : GenRequest) (resp : GenResponse),
      (generate_placement limit store req).response = .ok resp →
      resp.resultDims = limit_image_size 1200 req.composeDims) := by
  have hnoop : ∀ d : ℕ × ℕ, d.1 ≤ 1200 → d.2 ≤ 1200 → limit_image_size 1200 d = d := by
    intro d h1 h2
    simp [limit_image_size, h1, h2]
  have hshape : ∀ d : ℕ × ℕ, ¬ (d.1 ≤ 1200 ∧ d.2 ≤ 1200) →
      max (limit_image_size 1200 d).1 (limit_image_size 1200 d).2 = 1200 ∧
      (limit_image_size 1200 d).1 ≤ 1200 ∧ (limit_image_size 1200 d).2 ≤ 1200 := by
    intro d hbig
    obtain ⟨w, h⟩ := d
    simp only [limit_image_size, if_neg hbig]
    by_cases hwh : w ≥ h
    · rw [if_pos hwh]
      have hw : 1200 < w := by
        simp only [not_and_or, not_le] at hbig
        omega
      have hb : h * 1200 / w ≤ 1200 := nat_scale_le_bound h 1200 w (by omega) (by omega)
      simp only
      omega
    · rw [if_neg hwh]
      have hh : 1200 < h := by
        simp only [not_and_or, not_le] at hbig
        omega
      have hb : w * 1200 / h ≤ 1200 := nat_scale_le_bound w 1200 h (by omega) (by omega)
      simp only
      omega
  refine ⟨?_, ?_, hnoop, by decide, fun d hd => (hshape d hd).1, ?_⟩
  · intro d
    by_cases hbig : d.1 ≤ 1200 ∧ d.2 ≤ 1200
    · rw [hnoop d hbig.1 hbig.2]
      exact hnoop d hbig.1 hbig.2
    · obtain ⟨hb1, hb2⟩ := (hshape d hbig).2
      exact hnoop _ hb1 hb2
  · intro d
    obtain ⟨w, h⟩ := d
    simp only [limit_image_size]
    split_ifs with h1 h2
    · exact ⟨le_refl _, le_refl _⟩
    · have hw : 1200 < w := by
        simp only [not_and_or, not_le] at h1
        omega
      exact ⟨by simp only; omega, nat_scale_le_self h 1200 w (by omega)⟩
    · have hh : 1200 < h := by
        simp only [not_and_or, not_le] at h1
        omega
      exact ⟨nat_scale_le_self w 1200 h (by omega), by simp only; omega⟩
  · intro limit store req resp hresp
    cases hinner : generateInner limit store req with
    | error e =>
      rw [generate_placement_of_inner_err hinner] at hresp
      exact absurd hresp (by simp)
    | ok p =>
      obtain ⟨r, i⟩ := p
      rw [generate_placement_of_inner_ok hinner] at hresp
      simp only [Except.ok.injEq] at hresp
      rw [← hresp]
      exact (generateInner_ok_resultDims hinner).1

/-- Witness for C8: an already-small image is returned unchanged, and the
place-mode request of the quota scenario, whose composition yields a
2000x1000 image, answers with 1200x600. -/
theorem limit_image_size_spec_witness :
    limit_image_size 1200 (800, 600) = (800, 600) ∧
    (∀ resp, (generate_placement 3 [] quotaReqA).response = .ok resp →
      resp.resultDims = limit_image_size 1200 (2000, 1000)) :=
  ⟨limit_image_size_spec.2.2.1 (800, 600) (by omega) (by omega),
   fun resp h => limit_image_size_spec.2.2.2.2.2 3 [] quotaReqA resp h⟩

/-! # C9 — furniture collage layout -/

lemma nat_lt_div_succ_mul (a b : ℕ) (hb : 0 < b) : a < (a / b + 1) * b := by
  have h1 := Nat.div_add_mod a b
  have h2 := Nat.mod_lt a hb
  nlinarith [Nat.div_mul_le_self a b]

lemma le_foldl_max_init (l : List ℕ) : ∀ a : ℕ, a ≤ l.foldl max a := by
  induction l with
  | nil => intro a; simp
  | cons y l ih =>
    intro a
    calc a ≤ max a y := le_max_left _ _
    _ ≤ l.foldl max (max a y) := ih _

lemma le_foldl_max_mem (l : List ℕ) : ∀ (a x : ℕ), x ∈ l → x ≤ l.foldl max a := by
  induction l with
  | nil => intro a x hx; simp at hx
  | cons y l ih =>
    intro a x hx
    rcases List.mem_cons.mp hx with h | h
    · subst h
      calc x ≤ max a x := le_max_right _ _
      _ ≤ l.foldl max (max a x) := le_foldl_max_init _ _
    · exact ih _ x h

lemma collageXs_getElem (padding : ℕ) : ∀ (ws : List ℕ) (x i : ℕ), i < ws.length →
    (collageXs padding x ws)[i]? = some (x + (ws.take i).sum + padding * i) := by
  intro ws
  induction ws with
  | nil =>
    intro x i hi
    simp at hi
  | cons w ws ih =>
    intro x i hi
    cases i with
    | zero => simp [collageXs]
    | succ i =>
      have hi' : i < ws.length := by simpa using hi
      simp only [collageXs, List.getElem?_cons_succ, ih (x + w + padding) i hi']
      congr 1
      simp only [List.take_succ_cons, List.sum_cons, Nat.mul_succ]
      omega

/-- C9: for every non-empty list of furniture images the collage scales
each image to height at most maxItemHeight, never upscales, is a no-op on
images already short enough, keeps the width/height ratio to within the
integer rounding of the scaled width, sizes the canvas to the sum of scaled
widths plus padding*(count+1) by max scaled height plus 2*padding, lays
items left to right in input order with one padding between neighbours,
vertically centers each item, and uses an opaque white background; for
heights [300, 600, 900] with maxItemHeight 512 and padding 40 the canvas
height is 512 + 80 = 592. -/
theorem create_furniture_collage_spec (dims : List (ℕ × ℕ)) (max_height padding : ℕ)
    (hne : dims ≠ []) :
    (∃ c, create_furniture_collage dims max_height padding = .ok c ∧
      c.scaled = dims.map (scaleCollageItem max_height) ∧
      c.canvasW = (c.scaled.map Prod.fst).sum + padding * (dims.length + 1) ∧
      c.canvasH = (c.scaled.map Prod.snd).foldl max 0 + padding * 2 ∧
      c.background = (255, 255, 255, 255) ∧
      (∀ d ∈ dims, (scaleCollageItem max_height d).2 ≤ max_height ∧
        (scaleCollageItem max_height d).1 ≤ d.1 ∧
        (scaleCollageItem max_height d).2 ≤ d.2 ∧
        (d.2 ≤ max_height → scaleCollageItem max_height d = d) ∧
        (scaleCollageItem max_height d).2 + 2 * padding ≤ c.canvasH) ∧
      (∀ d ∈ dims, max_height < d.2 →
        (scaleCollageItem max_height d).1 * d.2 ≤ d.1 * max_height ∧
        d.1 * max_height < ((scaleCollageItem max_height d).1 + 1) * d.2) ∧
      c.positions = (collageXs padding padding (c.scaled.map Prod.fst)).zip
        (c.scaled.map (fun s => (c.canvasH - s.2) / 2)) ∧
      (∀ i, i < dims.length →
        (collageXs padding padding (c.scaled.map Prod.fst))[i]? =
          some (padding + ((c.scaled.map Prod.fst).take i).sum + padding * i))) ∧
    create_furniture_collage [(400, 300), (600, 600), (450, 900)] 512 40 =
      .ok { canvasW := 1328, canvasH := 592,
            scaled := [(400, 300), (512, 512), (256, 512)],
            positions := [(40, 146), (480, 40), (1032, 40)],
            background := (255, 255, 255, 255) } := by
  constructor
  · obtain ⟨d0, rest, rfl⟩ : ∃ d0 rest, dims = d0 :: rest := by
      cases dims with
      | nil => exact absurd rfl hne
      | cons d0 rest => exact ⟨d0, rest, rfl⟩
    refine ⟨_, rfl, rfl, rfl, rfl, rfl, ?_, ?_, rfl, ?_⟩
    · intro d hd
      have hsc : ∀ e : ℕ × ℕ, (scaleCollageItem max_height e).2 ≤ max_height ∧
          (scaleCollageItem max_height e).1 ≤ e.1 ∧
          (scaleCollageItem max_height e).2 ≤ e.2 ∧
          (e.2 ≤ max_height → scaleCollageItem max_height e = e) := by
        intro e
        simp only [scaleCollageItem]
        by_cases hb : e.2 > max_height
        · rw [if_pos hb]
          exact ⟨le_refl _, nat_scale_le_self e.1 max_height e.2 (by omega),
                 by simp only; omega, fun hc => absurd hc (by omega)⟩
        · rw [if_neg hb]
          exact ⟨by omega, le_refl _, le_refl _, fun _ => rfl⟩
      refine ⟨(hsc d).1, (hsc d).2.1, (hsc d).2.2.1, (hsc d).2.2.2, ?_⟩
      have hmem : (scaleCollageItem max_height d).2 ∈
          (((d0 :: rest).map (scaleCollageItem max_height)).map Prod.snd) := by
        refine List.mem_map.mpr ⟨scaleCollageItem max_height d, List.mem_map.mpr ⟨d, hd, rfl⟩, rfl⟩
      have := le_foldl_max_mem _ 0 _ hmem
      simp only [CollageLayout.canvasH]
      omega
    · intro d hd hbig
      simp only [scaleCollageItem, if_pos (show d.2 > max_height from hbig)]
      constructor
      · exact Nat.div_mul_le_self _ _
      · exact nat_lt_div_succ_mul (d.1 * max_height) d.2 (by omega)
    · intro i hi
      refine collageXs_getElem padding _ padding i ?_
      simpa using hi
  · decide

/-- Witness for C9: the three-image example satisfies the layout theorem. -/
theorem create_furniture_collage_spec_witness :
    ([(400, 300), (600, 600), (450, 900)] : List (ℕ × ℕ)) ≠ [] ∧
    ∃ c, create_furniture_collage [(400, 300), (600, 600), (450, 900)] 512 40 = .ok c ∧
      c.scaled = [(400, 300), (600, 600), (450, 900)].map (scaleCollageItem 512) := by
  refine ⟨by decide, ?_⟩
  obtain ⟨⟨c, h1, h2, _⟩, _⟩ :=
    create_furniture_collage_spec [(400, 300), (600, 600), (450, 900)] 512 40 (by decide)
  exact ⟨c, h1, h2⟩

/-! # C6 — deterministic fallback layout on vision failure -/

/-- C6: when the vision call fails in place mode the request still succeeds,
and each item i of n receives the fallback placement x = 25 + i*50/max(1,n-1),
y = 55 + (i%2)*8, w = 30/n, h = 25/n, rotation 0, wall "auto"; for n=1 the
x_percent is 25 (not centered at 50); for n=3 the x_percents are 25/50/75
with width 10 and the rectangles are pairwise horizontally disjoint. -/
theorem fallback_layout_spec (limit : ℕ) (store : Store) (req : GenRequest)
    (fps : List String) (emsg : String)
    (hq : get_generate_count store (deriveClientId req) < limit)
    (hp : req.furniture_image_paths = .paths fps)
    (h0 : fps.length ≠ 0) (h5 : fps.length ≤ 5)
    (hrep : pyLower (pyStrip req.placement_mode) ≠ "replace")
    (hrot : req.furniture_rotation = 0 ∨ req.furniture_rotation = 90)
    (hman : manualBoxOf req = none)
    (hfail : req.analysisResult = .error emsg) :
    (∃ resp, (generate_placement limit store req).response = .ok resp ∧
      resp.analysis.furniture_items = (List.range fps.length).map (fun (i : ℕ) =>
        { index := (i : ℤ), type := some "furniture",
          placement := some (fallbackItemPlacement fps.length i) })) ∧
    (∀ n i : ℕ, (fallbackItemPlacement n i).rotation = some 0 ∧
      (fallbackItemPlacement n i).wall_alignment = some "auto") ∧
    ((fallbackItemPlacement 1 0).x_percent = some 25 ∧ (25 : ℚ) ≠ 50) ∧
    ((List.range 3).map (fun i => (fallbackItemPlacement 3 i).x_percent) =
      [some 25, some 50, some 75]) ∧
    ((List.range 3).map (fun i => (fallbackItemPlacement 3 i).width_percent) =
      [some 10, some 10, some 10]) ∧
    (∀ i j : ℕ, i < 3 → j < 3 → i < j →
      (fallbackItemPlacement 3 i).x_percent.getD 0 +
          (fallbackItemPlacement 3 i).width_percent.getD 0 / 2 <
        (fallbackItemPlacement 3 j).x_percent.getD 0 -
          (fallbackItemPlacement 3 j).width_percent.getD 0 / 2) := by
  refine ⟨?_, fun n i => ⟨rfl, rfl⟩, ⟨?_, by norm_num⟩, ?_, ?_, ?_⟩
  · have hres := resolvePlacementAnalysis_fallback req fps.length hfail hman hrot
    have hinner := generateInner_place limit store req fps hq hp h0 hrep h5 hres
    rw [generate_placement_of_inner_ok hinner]
    exact ⟨_, rfl, rfl⟩
  · simp only [fallbackItemPlacement]
    norm_num
  · rw [show List.range 3 = [0, 1, 2] from rfl]
    simp only [List.map_cons, List.map_nil, fallbackItemPlacement]
    norm_num
  · rw [show List.range 3 = [0, 1, 2] from rfl]
    simp only [List.map_cons, List.map_nil, fallbackItemPlacement]
    norm_num
  · intro i j hi hj hij
    interval_cases i <;> interval_cases j <;>
      simp only [fallbackItemPlacement, Option.getD_some] <;> norm_num

/-- Witness for C6: a single-item place request with the vision call failing
succeeds and carries the fallback layout for n = 1. -/
theorem fallback_layout_spec_witness :
    get_generate_count [] (deriveClientId quotaReqA) < 3 ∧
    ∃ resp, (generate_placement 3 [] quotaReqA).response = .ok resp ∧
      resp.analysis.furniture_items = (List.range 1).map (fun (i : ℕ) =>
        { index := (i : ℤ), type := some "furniture",
          placement := some (fallbackItemPlacement 1 i) }) :=
  ⟨by decide,
   (fallback_layout_spec 3 [] quotaReqA ["f1"] "boom" (by decide) rfl (by decide)
      (by decide) (by decide) (Or.inl rfl) (by decide) rfl).1⟩

/-! # C2 — manual box versus the geometry the composition actually uses -/

/-- The per-item placement the vision analysis proposes in `manualCexAI`. -/
def manualCexItemPl : PlacementDict :=
  { x_percent := some 10, y_percent := some 10, width_percent := some 10,
    height_percent := some 10, rotation := some 0, wall_alignment := some "auto" }

/-- An AI analysis whose first furniture item carries its own placement. -/
def manualCexAI : Analysis :=
  { furniture_items := [{ index := 0, placement := some manualCexItemPl }] }

/-- A manual-mode single-item request with box (0,0,100,100) in a 200x200
room, rotation 90 and wall "left", whose vision analysis succeeds with
`manualCexAI`. -/
def manualCexReq : GenRequest :=
  { forwardedFor := some "7.7.7.7"
    furniture_image_paths := .paths ["f1"]
    roomDims := (200, 200)
    mode := "manual"
    manual_box_x := some 0
    manual_box_y := some 0
    manual_box_w := some 100
    manual_box_h := some 100
    furniture_rotation := 90
    wall_alignment := "left"
    analysisResult := .ok manualCexAI
    composeDims := (1000, 800) }

/-- The finalized placement for `manualCexReq`: the manual rectangle in
percent form with the validated rotation and wall alignment. -/
def manualCexFinalPl : PlacementDict :=
  { x_percent := some 25, y_percent := some 25, width_percent := some 50,
    height_percent := some 50, rotation := some 90, wall_alignment := some "left",
    reasoning := some "User selected target rectangle (bbox). Place furniture inside this area." }

/-- The analysis after manual-box application and rotation/wall
finalization for `manualCexReq`. -/
def manualCexFinal : Analysis :=
  { manualCexAI with placement := some manualCexFinalPl }

lemma manualCex_resolve : resolvePlacementAnalysis manualCexReq 1 = .ok manualCexFinal := by
  simp [resolvePlacementAnalysis, manualCexReq, manualCexAI, manualCexFinal, manualCexFinalPl,
    manualCexItemPl, manualBoxOf, clampBox, applyManualBox, finalizeRotationWall,
    min_def, max_def]
  norm_num

/-- C2 counterexample: for `manualCexReq` the analysis record does end up
holding the manual rectangle (center 25%/25%, size 50%x50%, rotation 90,
wall "left"), but the placement handed to the single-item composition call
is the AI item placement (center 10%/10%, size 10%x10%, rotation 0, wall
"auto"): the manual box and the validated rotation/wall do not reach the
composition step. -/
theorem manual_precedence_counterexample :
    (generate_placement 3 [] manualCexReq).composeCall =
      some (.singleCall manualCexItemPl) ∧
    (∃ resp, (generate_placement 3 [] manualCexReq).response = .ok resp ∧
      resp.analysis.placement = some manualCexFinalPl) ∧
    ((10 : ℚ) ≠ 25 ∧ (0 : ℤ) ≠ 90 ∧ "auto" ≠ "left") := by
  have hinner := generateInner_place 3 [] manualCexReq ["f1"]
    (by decide) rfl (by decide) (by decide) (by decide) manualCex_resolve
  rw [generate_placement_of_inner_ok hinner]
  refine ⟨?_, ⟨_, rfl, ?_⟩, by norm_num, by decide, by decide⟩
  · simp [singleCallPlacement, manualCexFinal, manualCexAI, manualCexItemPl,
      PlacementDict.isTruthy]
  · simp [manualCexFinal, manualCexAI]

/-- C2 amended: the clamped manual rectangle in percent form, with the
validated rotation and the resolved wall alignment, is what ends up in
`analysis.placement` (manual applied after analysis, rotation and wall after
the manual box), and the per-item list is untouched; but the composition
step reads `analysis.placement` only on the single-item path and only when
`furniture_items` is empty or its first item has no non-empty placement —
when `furniture_items[0]` carries a non-empty placement it is used instead
of the manual rectangle, and the 2-to-5-item prompt builder ignores
`analysis.placement` entirely. -/
theorem manual_precedence_amended :
    (∀ (a0 : Analysis) (cx cy cw ch rw rh rot : ℤ) (wall : String),
      (finalizeRotationWall (applyManualBox a0 cx cy cw ch rw rh) rot wall).placement =
        some { x_percent := some ((((cx : ℚ) + (cw : ℚ) / 2) / (rw : ℚ)) * 100),
               y_percent := some ((((cy : ℚ) + (ch : ℚ) / 2) / (rh : ℚ)) * 100),
               width_percent := some (((cw : ℚ) / (rw : ℚ)) * 100),
               height_percent := some (((ch : ℚ) / (rh : ℚ)) * 100),
               rotation := some rot, wall_alignment := some wall,
               reasoning := some "User selected target rectangle (bbox). Place furniture inside this area." } ∧
      (finalizeRotationWall (applyManualBox a0 cx cy cw ch rw rh) rot wall).furniture_items =
        a0.furniture_items) ∧
    (∀ a : Analysis,
      (a.furniture_items = [] → singleCallPlacement a = a.placement.getD {}) ∧
      (∀ first rest, a.furniture_items = first :: rest → first.placement = none →
        singleCallPlacement a = a.placement.getD {}) ∧
      (∀ first rest pl, a.furniture_items = first :: rest → first.placement = some pl →
        pl.isTruthy = false → singleCallPlacement a = a.placement.getD {}) ∧
      (∀ first rest pl, a.furniture_items = first :: rest → first.placement = some pl →
        pl.isTruthy = true → singleCallPlacement a = pl)) ∧
    (∀ (a : Analysis) (p : Option PlacementDict) (n : ℕ),
      create_multi_placement_prompt { a with placement := p } n =
        create_multi_placement_prompt a n) ∧
    (∀ (limit : ℕ) (store : Store) (req : GenRequest) (fps : List String) (a2 : Analysis),
      get_generate_count store (deriveClientId req) < limit →
      req.furniture_image_paths = .paths fps →
      fps.length = 1 →
      pyLower (pyStrip req.placement_mode) ≠ "replace" →
      resolvePlacementAnalysis req fps.length = .ok a2 →
      (generate_placement limit store req).composeCall =
        some (.singleCall (singleCallPlacement a2)) ∧
      (∃ resp, (generate_placement limit store req).response = .ok resp ∧
        resp.analysis = a2)) := by
  refine ⟨fun a0 cx cy cw ch rw rh rot wall => ⟨rfl, rfl⟩, ?_, fun a p n => rfl, ?_⟩
  · intro a
    refine ⟨?_, ?_, ?_, ?_⟩
    · intro hnil
      simp [singleCallPlacement, hnil]
    · intro first rest hcons hpl
      simp [singleCallPlacement, hcons, hpl]
    · intro first rest pl hcons hpl htr
      simp [singleCallPlacement, hcons, hpl, htr]
    · intro first rest pl hcons hpl htr
      simp [singleCallPlacement, hcons, hpl, htr]
  · intro limit store req fps a2 hq hp hlen hrep hres
    have hinner := generateInner_place limit store req fps hq hp (by omega) hrep (by omega) hres
    rw [generate_placement_of_inner_ok hinner]
    rw [hlen] at hinner ⊢
    refine ⟨?_, ⟨_, rfl, rfl⟩⟩
    simp

/-- A manual-mode request whose analysis succeeds with an empty analysis
(no furniture_items): here the manual rectangle does reach composition. -/
def manualOkReq : GenRequest :=
  { furniture_image_paths := .paths ["f1"]
    roomDims := (200, 200)
    mode := "manual"
    manual_box_x := some 0
    manual_box_y := some 0
    manual_box_w := some 100
    manual_box_h := some 100
    furniture_rotation := 90
    wall_alignment := "left"
    analysisResult := .ok {}
    composeDims := (1000, 800) }

/-- Witness for C2 amended: with no furniture_items in the analysis the
composition call receives exactly the finalized manual placement. -/
theorem manual_precedence_amended_witness :
    resolvePlacementAnalysis manualOkReq 1 = .ok
      (finalizeRotationWall (applyManualBox {} 0 0 100 100 200 200) 90 "left") ∧
    (generate_placement 3 [] manualOkReq).composeCall =
      some (.singleCall (singleCallPlacement
        (finalizeRotationWall (applyManualBox {} 0 0 100 100 200 200) 90 "left"))) := by
  have hres : resolvePlacementAnalysis manualOkReq 1 = .ok
      (finalizeRotationWall (applyManualBox {} 0 0 100 100 200 200) 90 "left") := by
    simp [resolvePlacementAnalysis, manualOkReq, manualBoxOf, clampBox, min_def, max_def]
  exact ⟨hres,
    (manual_precedence_amended.2.2.2 3 [] manualOkReq ["f1"] _ (by decide) rfl rfl
      (by decide) hres).1⟩

/-! # C7 — input validation and how it is surfaced -/

/-- Place-mode request whose furniture path array is the empty JSON list. -/
def invalidReqEmpty : GenRequest := { furniture_image_paths := .paths [] }

/-- Place-mode request with six furniture paths. -/
def invalidReqSix : GenRequest :=
  { furniture_image_paths := .paths ["a", "b", "c", "d", "e", "f"] }

/-- Replace-mode request with two furniture paths. -/
def replaceTwoReq : GenRequest :=
  { placement_mode := "replace", furniture_image_paths := .paths ["a", "b"] }

/-- Replace-mode request with exactly one furniture path. -/
def replaceOneReq : GenRequest :=
  { placement_mode := "replace", furniture_image_paths := .paths ["a"],
    composeDims := (800, 600) }

/-- Place-mode request with rotation 45. -/
def badRotationReq : GenRequest :=
  { furniture_image_paths := .paths ["a"], furniture_rotation := 45 }

/-- C7: the validation predicates and their fail-fast order are as claimed —
an empty path list, more than 5 items, a replace request without exactly one
path, and a rotation outside {0, 90} are all rejected before any composition
call, and replace with exactly one path succeeds with
preserves_original = false — but the rejections are surfaced with HTTP
status 500, not 400: the handler's catch-all re-wraps its own
HTTPException(400, ...) into a 500 whose detail embeds the original
400 detail. -/
theorem invalid_input_surfacing :
    ((generate_placement TRIAL_LIMIT [] invalidReqEmpty).response =
        .error (500, "Ошибка генерации: 400: furniture_image_paths должен быть непустым массивом") ∧
      (generate_placement TRIAL_LIMIT [] invalidReqEmpty).composeCall = none) ∧
    ((generate_placement TRIAL_LIMIT [] invalidReqSix).response =
        .error (500, "Ошибка генерации: 400: Максимум 5 предметов мебели") ∧
      (generate_placement TRIAL_LIMIT [] invalidReqSix).composeCall = none) ∧
    ((generate_placement TRIAL_LIMIT [] replaceTwoReq).response =
        .error (500,
          "Ошибка генерации: 400: В режиме «Заменить мебель» выберите ровно один предмет (новую мебель)") ∧
      (generate_placement TRIAL_LIMIT [] replaceTwoReq).composeCall = none) ∧
    ((generate_placement TRIAL_LIMIT [] replaceOneReq).response =
        .ok { resultDims := (800, 600), preserves_original := false,
              analysis := replaceModeAnalysis, furniture_count := 1 } ∧
      (generate_placement TRIAL_LIMIT [] replaceOneReq).composeCall =
        some (.replaceCall none)) ∧
    ((generate_placement TRIAL_LIMIT [] badRotationReq).response =
        .error (500, "Ошибка генерации: 400: furniture_rotation должен быть 0 или 90") ∧
      (generate_placement TRIAL_LIMIT [] badRotationReq).composeCall = none) ∧
    (∀ (status : ℕ) (detail : String), (wrapError (.http status detail)).1 = 500) := by
  refine ⟨by decide, by decide, by decide, by decide, by decide, fun status detail => rfl⟩

/-! # C10 — the wall_alignment parameter is never validated -/

/-- A place-mode request carrying an arbitrary wall_alignment string. -/
def wallReq (w : String) : GenRequest :=
  { furniture_image_paths := .paths ["f1"]
    wall_alignment := w
    analysisResult := .error "boom" }

/-- A manual-box request carrying an arbitrary wall_alignment string. -/
def wallManualReq (w : String) : GenRequest :=
  { furniture_image_paths := .paths ["f1"]
    mode := "manual"
    manual_box_x := some 0
    manual_box_y := some 0
    manual_box_w := some 100
    manual_box_h := some 100
    roomDims := (1000, 800)
    wall_alignment := w
    analysisResult := .error "boom" }

/-- The response record of a successful `wallReq w` call. -/
def wallReqResp (w : String) : GenResponse :=
  { resultDims := limit_image_size 1200 (1000, 800)
    preserves_original := false
    analysis := finalizeRotationWall (fallbackAnalysis 1) 0 w
    furniture_count := 1 }

lemma wallReq_ok (w : String) :
    generate_placement 3 [] (wallReq w) =
      { response := .ok (wallReqResp w)
        composeCall := some (.singleCall
          (singleCallPlacement (finalizeRotationWall (fallbackAnalysis 1) 0 w)))
        store := recordGeneration [] (deriveClientId (wallReq w)) } := by
  have hman : manualBoxOf (wallReq w) = none := rfl
  have hres := resolvePlacementAnalysis_fallback (wallReq w) 1 rfl hman (Or.inl rfl)
  have hq : get_generate_count [] (deriveClientId (wallReq w)) < 3 := by
    rw [show get_generate_count [] (deriveClientId (wallReq w)) = 0 from rfl]
    omega
  have hrep : pyLower (pyStrip (wallReq w).placement_mode) ≠ "replace" := by
    rw [show (wallReq w).placement_mode = "place" from rfl]
    decide
  have hinner := generateInner_place 3 [] (wallReq w) ["f1"] hq rfl (by decide) hrep
    (by decide) hres
  rw [generate_placement_of_inner_ok hinner]
  rfl

lemma wallManualReq_resolve (w : String) :
    resolvePlacementAnalysis (wallManualReq w) 1 =
      .ok (finalizeRotationWall
        (applyManualBox (fallbackAnalysis 1) 0 0 100 100 1000 800) 0
        (if w = "auto" then inferWallAlignment 0 100 0 1000 else w)) := by
  have hcl : clampBox 0 0 100 100 1000 800 = (0, 0, 100, 100) := by decide
  simp [resolvePlacementAnalysis, wallManualReq, manualBoxOf, hcl]

lemma wallManualReq_ok (w : String) :
    ∃ resp, (generate_placement 3 [] (wallManualReq w)).response = .ok resp ∧
      resp.analysis = finalizeRotationWall
        (applyManualBox (fallbackAnalysis 1) 0 0 100 100 1000 800) 0
        (if w = "auto" then inferWallAlignment 0 100 0 1000 else w) := by
  have hq : get_generate_count [] (deriveClientId (wallManualReq w)) < 3 := by
    rw [show get_generate_count [] (deriveClientId (wallManualReq w)) = 0 from rfl]
    omega
  have hrep : pyLower (pyStrip (wallManualReq w).placement_mode) ≠ "replace" := by
    rw [show (wallManualReq w).placement_mode = "place" from rfl]
    decide
  have hinner := generateInner_place 3 [] (wallManualReq w) ["f1"] hq rfl (by decide) hrep
    (by decide) (wallManualReq_resolve w)
  rw [generate_placement_of_inner_ok hinner]
  exact ⟨_, rfl, rfl⟩

/-- C10: the wall_alignment form field is accepted for any string value —
the request succeeds and the value is written verbatim into
analysis.placement.wall_alignment; the single-item prompt builder emits a
wall instruction only for exactly "right", "left" and "back" and silently
ignores every other value; wall inference replaces the value only when it
is exactly "auto" and a manual box is present, while any other value is
kept verbatim even with a manual box. -/
theorem wall_alignment_unvalidated :
    (∀ w : String, ∃ resp, (generate_placement 3 [] (wallReq w)).response = .ok resp ∧
      resp.analysis = finalizeRotationWall (fallbackAnalysis 1) 0 w ∧
      ((resp.analysis.placement.getD {}).wall_alignment = some w)) ∧
    (∀ (a : Analysis) (rot : ℤ) (w : String),
      (((finalizeRotationWall a rot w).placement.getD {}).wall_alignment = some w)) ∧
    ((∀ w : String, w ≠ "right" → w ≠ "left" → w ≠ "back" → wallHint w = none) ∧
      wallHint "right" = some "right wall" ∧ wallHint "left" = some "left wall" ∧
      wallHint "back" = some "back wall" ∧ wallHint "auto" = none ∧
      wallHint "banana" = none) ∧
    (∀ w : String, w ≠ "auto" →
      ∃ resp, (generate_placement 3 [] (wallManualReq w)).response = .ok resp ∧
        ((resp.analysis.placement.getD {}).wall_alignment = some w)) ∧
    (∃ resp, (generate_placement 3 [] (wallManualReq "auto")).response = .ok resp ∧
      ((resp.analysis.placement.getD {}).wall_alignment =
        some (inferWallAlignment 0 100 0 1000)) ∧
      inferWallAlignment 0 100 0 1000 = "left") := by
  refine ⟨?_, fun a rot w => rfl, ⟨?_, rfl, rfl, rfl, rfl, rfl⟩, ?_, ?_⟩
  · intro w
    rw [wallReq_ok w]
    exact ⟨wallReqResp w, rfl, rfl, rfl⟩
  · intro w h1 h2 h3
    simp [wallHint, h1, h2, h3]
  · intro w hw
    obtain ⟨resp, h1, h2⟩ := wallManualReq_ok w
    refine ⟨resp, h1, ?_⟩
    rw [h2, if_neg hw]
    rfl
  · obtain ⟨resp, h1, h2⟩ := wallManualReq_ok "auto"
    refine ⟨resp, h1, ?_, by decide⟩
    rw [h2, if_pos rfl]
    rfl

/-- Witness for C10: the unvalidated value "banana" is accepted, stored
verbatim, and ignored by the prompt builder. -/
theorem wall_alignment_unvalidated_witness :
    (∃ resp, (generate_placement 3 [] (wallReq "banana")).response = .ok resp ∧
      resp.analysis = finalizeRotationWall (fallbackAnalysis 1) 0 "banana" ∧
      ((resp.analysis.placement.getD {}).wall_alignment = some "banana")) ∧
    wallHint "banana" = none ∧
    (∃ resp, (generate_placement 3 [] (wallManualReq "banana")).response = .ok resp ∧
      ((resp.analysis.placement.getD {}).wall_alignment = some "banana")) :=
  ⟨wall_alignment_unvalidated.1 "banana",
   wall_alignment_unvalidated.2.2.1.1 "banana" (by decide) (by decide) (by decide),
   wall_alignment_unvalidated.2.2.2.1 "banana" (by decide)⟩

end Mebel
